import Mathlib

/-!
Verification of the geospatial proximity feature engine (well spacing
analysis).  The development shallowly embeds the two source modules that
carry the algorithmic content:

* `src/utils.py` — `distance_in_feet`, the validated haversine
  great-circle distance in feet;
* `src/well_spacing.py` — `WellSpacingAnalyzer`, which derives four
  spacing features for every well of a population.

Modelling conventions: a Python float argument that may be `NaN` or a
missing value is `Option ℚ` (`none` = `NaN`/missing; every finite Python
float is a rational number).  Real-valued trigonometry is carried out in
`ℝ`.  A raised `ValueError` is the `Except.error` branch of an `Except`
value.  A pandas `DataFrame` of wells is a `List Well`, one element per
row, in row order.
-/

/-- A scalar as handed to the distance function: `none` models `NaN`
(and a missing value, which pandas also surfaces as `NaN`), `some q` a
finite numeric value. -/
abbrev PyFloat := Option ℚ

/-- The error raised by `distance_in_feet` (`ValueError` in the source,
`InvalidCoordinate` in the specification). -/
inductive GeoError where
  | invalidCoordinate
deriving DecidableEq

/-- Degree-to-radian conversion, `math.radians`. -/
noncomputable def radians (x : ℝ) : ℝ := x * (Real.pi / 180)

/-- Two-argument arctangent `math.atan2 y x`, which for every input pair
equals the principal argument of the complex number `x + y·i` (both have
range `(-π, π]`, both send `(0, 0)` to `0`). -/
noncomputable def atan2 (y x : ℝ) : ℝ := Complex.arg ⟨x, y⟩

/-- Body of `distance_in_feet` after validation has passed
(`src/utils.py` lines 41–54): the haversine formula on a sphere of
radius 6371000 m, converted to feet with factor 3.2808399 and rounded to
the nearest integer. -/
noncomputable def haversineFeet (lat1 lng1 lat2 lng2 : ℚ) : ℤ :=
  let phi1 := radians (lat1 : ℝ)
  let phi2 := radians (lat2 : ℝ)
  let delta_phi := radians ((lat2 - lat1 : ℚ) : ℝ)
  let delta_lambda := radians ((lng2 - lng1 : ℚ) : ℝ)
  let a := Real.sin (delta_phi / 2) ^ 2 +
    Real.cos phi1 * Real.cos phi2 * Real.sin (delta_lambda / 2) ^ 2
  let c := 2 * atan2 (Real.sqrt a) (Real.sqrt (1 - a))
  round ((6371000 * 3.2808399 : ℝ) * c)

/-- Embedding of `src/utils.py` `distance_in_feet`: each argument is
first required to be numeric and non-`NaN`, then the latitudes are
range-checked, then the longitudes; only then is the haversine distance
computed. -/
noncomputable def distance_in_feet (lat1 lng1 lat2 lng2 : PyFloat) :
    Except GeoError ℤ :=
  match lat1, lng1, lat2, lng2 with
  | some a1, some o1, some a2, some o2 =>
    if (-90 ≤ a1 ∧ a1 ≤ 90) ∧ (-90 ≤ a2 ∧ a2 ≤ 90) then
      if (-180 ≤ o1 ∧ o1 ≤ 180) ∧ (-180 ≤ o2 ∧ o2 ≤ 180) then
        Except.ok (haversineFeet a1 o1 a2 o2)
      else Except.error GeoError.invalidCoordinate
    else Except.error GeoError.invalidCoordinate
  | _, _, _, _ => Except.error GeoError.invalidCoordinate

/-- Modelled from the spec (§4.1 algorithm block): the great-circle
distance in feet that `GeoDistance` is required to return for two valid
points, written out exactly as the specification states it, to be
compared with the source-derived `haversineFeet`. -/
noncomputable def specGreatCircleFeet (lat1 lng1 lat2 lng2 : ℚ) : ℤ :=
  let phi1 := radians (lat1 : ℝ)
  let phi2 := radians (lat2 : ℝ)
  let dphi := radians ((lat2 - lat1 : ℚ) : ℝ)
  let dlambda := radians ((lng2 - lng1 : ℚ) : ℝ)
  let a := Real.sin (dphi / 2) ^ 2 +
    Real.cos phi1 * Real.cos phi2 * Real.sin (dlambda / 2) ^ 2
  let c := 2 * atan2 (Real.sqrt a) (Real.sqrt (1 - a))
  round ((6371000 * 3.2808399 : ℝ) * c)

/-- Modelled from the spec (§4.1 validation, §8): the condition under
which `GeoDistance` must fail — some coordinate is non-finite or
non-numeric (`none`), some latitude is outside `[-90, 90]`, or some
longitude is outside `[-180, 180]`. -/
def invalidGeoInput (lat1 lng1 lat2 lng2 : PyFloat) : Bool :=
  match lat1, lng1, lat2, lng2 with
  | some a1, some o1, some a2, some o2 =>
    decide (a1 < -90 ∨ 90 < a1) || decide (a2 < -90 ∨ 90 < a2) ||
    decide (o1 < -180 ∨ 180 < o1) || decide (o2 < -180 ∨ 180 < o2)
  | _, _, _, _ => true

/-- One row of the wells `DataFrame`: the columns the analyzer reads. -/
structure Well where
  API10 : String
  SHLLatitude : PyFloat
  SHLLongitude : PyFloat
  IsHorizontalWell : Bool
deriving DecidableEq

/-- The four feature columns `add_spacing_features` adds, for one well.
`none` models the `NaN` the source appends when a feature is undefined. -/
structure SpacingFeatures where
  DistanceToNearestHorizontalWell : Option ℤ
  HorizontalWellsWithin1Mile : ℕ
  AvgDistanceTo3NearestHorizontal : Option ℚ
  WellDensityScore : ℝ

/-- Shape of a distance oracle; the program instantiates it with
`distance_in_feet`. -/
abbrev DistFn := PyFloat → PyFloat → PyFloat → PyFloat → Except GeoError ℤ

/-- Loop body of `_calculate_nearest_horizontal_distance`
(`src/well_spacing.py` lines 65–97) for one well, with the distance
function abstracted: skip the well when a coordinate is `NaN`; otherwise
take the minimum successful distance to the horizontal candidates
(excluding records with the well's own `API10` when the well is
horizontal), `NaN` when there is no candidate or no distance call
succeeds. -/
def nearestHorizontalDistanceOf (dist : DistFn) (horizontal_wells : List Well)
    (well : Well) : Option ℤ :=
  if well.SHLLatitude.isNone || well.SHLLongitude.isNone then none
  else
    let horizontal_candidates :=
      if well.IsHorizontalWell then
        horizontal_wells.filter (fun o => o.API10 != well.API10)
      else horizontal_wells
    if horizontal_candidates.length = 0 then none
    else
      (horizontal_candidates.filterMap (fun o =>
        if o.SHLLatitude.isSome && o.SHLLongitude.isSome then
          (dist well.SHLLatitude well.SHLLongitude
            o.SHLLatitude o.SHLLongitude).toOption
        else none)).min?

/-- Loop body of `_count_wells_within_radius` (`src/well_spacing.py`
lines 105–131) for one well, distance function abstracted: `0` when a
coordinate is `NaN`, otherwise the number of horizontal wells with a
different `API10`, both coordinates present, and a successful distance
at most `radius_feet`. -/
def countWellsWithinRadiusOf (dist : DistFn) (horizontal_wells : List Well)
    (radius_feet : ℚ) (well : Well) : ℕ :=
  if well.SHLLatitude.isNone || well.SHLLongitude.isNone then 0
  else
    horizontal_wells.countP (fun o =>
      (o.API10 != well.API10) && o.SHLLatitude.isSome &&
      o.SHLLongitude.isSome &&
      (match dist well.SHLLatitude well.SHLLongitude
          o.SHLLatitude o.SHLLongitude with
       | Except.ok d => decide ((d : ℚ) ≤ radius_feet)
       | Except.error _ => false))

/-- Loop body of `_average_distance_to_k_nearest` (`src/well_spacing.py`
lines 139–169) for one well, distance function abstracted: collect the
successful distances to horizontal wells with a different `API10` and
both coordinates present; if at least `k` were collected, sort them
ascending and return the mean of the first `k`, else `NaN`. -/
def averageDistanceToKNearestOf (dist : DistFn) (horizontal_wells : List Well)
    (k : ℕ) (well : Well) : Option ℚ :=
  if well.SHLLatitude.isNone || well.SHLLongitude.isNone then none
  else
    let distances := horizontal_wells.filterMap (fun o =>
      if o.API10 == well.API10 then none
      else if o.SHLLatitude.isSome && o.SHLLongitude.isSome then
        (dist well.SHLLatitude well.SHLLongitude
          o.SHLLatitude o.SHLLongitude).toOption
      else none)
    if k ≤ distances.length then
      some ((((distances.mergeSort (fun a b => decide (a ≤ b))).take k).map
        (fun d => (d : ℚ))).sum / (k : ℚ))
    else none

/-- Loop body of `_calculate_well_density_score` (`src/well_spacing.py`
lines 184–211) for one well, distance function abstracted: `0.0` when a
coordinate is `NaN`, otherwise the number of wells of the full
population with a different `API10`, both coordinates present and a
successful distance at most `2 * 5280` feet, divided by the area
`π · 2²` square miles of the 2-mile disc. -/
noncomputable def wellDensityScoreOf (dist : DistFn) (wells_df : List Well)
    (well : Well) : ℝ :=
  if well.SHLLatitude.isNone || well.SHLLongitude.isNone then 0
  else
    ((wells_df.countP (fun o =>
      (o.API10 != well.API10) && o.SHLLatitude.isSome &&
      o.SHLLongitude.isSome &&
      (match dist well.SHLLatitude well.SHLLongitude
          o.SHLLatitude o.SHLLongitude with
       | Except.ok d => decide ((d : ℚ) ≤ 2 * 5280)
       | Except.error _ => false)) : ℕ) : ℝ) / (Real.pi * 2 ^ 2)

/-- State of `WellSpacingAnalyzer`: the (copied) wells frame and the
horizontal subset. -/
structure WellSpacingAnalyzer where
  wells_df : List Well
  horizontal_wells : List Well

/-- Embedding of `WellSpacingAnalyzer.__init__`: store a copy of the
input frame and the subframe of rows with `IsHorizontalWell` set (the
copies make the analyzer own its data; the caller's frame is never
written). -/
def WellSpacingAnalyzer.init (wells_df : List Well) : WellSpacingAnalyzer :=
  ⟨wells_df, wells_df.filter (fun o => o.IsHorizontalWell)⟩

/-- Method `_calculate_nearest_horizontal_distance`, as the per-well
value of the Series it returns. -/
noncomputable def WellSpacingAnalyzer.calculate_nearest_horizontal_distance
    (self : WellSpacingAnalyzer) (well : Well) : Option ℤ :=
  nearestHorizontalDistanceOf distance_in_feet self.horizontal_wells well

/-- Method `_count_wells_within_radius`, as the per-well value of the
Series it returns. -/
noncomputable def WellSpacingAnalyzer.count_wells_within_radius
    (self : WellSpacingAnalyzer) (radius_feet : ℚ) (well : Well) : ℕ :=
  countWellsWithinRadiusOf distance_in_feet self.horizontal_wells
    radius_feet well

/-- Method `_average_distance_to_k_nearest`, as the per-well value of
the Series it returns. -/
noncomputable def WellSpacingAnalyzer.average_distance_to_k_nearest
    (self : WellSpacingAnalyzer) (k : ℕ) (well : Well) : Option ℚ :=
  averageDistanceToKNearestOf distance_in_feet self.horizontal_wells k well

/-- Method `_calculate_well_density_score`, as the per-well value of the
Series it returns. -/
noncomputable def WellSpacingAnalyzer.calculate_well_density_score
    (self : WellSpacingAnalyzer) (well : Well) : ℝ :=
  wellDensityScoreOf distance_in_feet self.wells_df well

/-- Embedding of `WellSpacingAnalyzer.add_spacing_features`: assign the
four feature Series as new columns of the frame and return it — each
output row is the input row paired with its four features, in row
order. -/
noncomputable def WellSpacingAnalyzer.add_spacing_features
    (self : WellSpacingAnalyzer) : List (Well × SpacingFeatures) :=
  self.wells_df.map (fun w =>
    (w, ⟨self.calculate_nearest_horizontal_distance w,
         self.count_wells_within_radius 5280 w,
         self.average_distance_to_k_nearest 3 w,
         self.calculate_well_density_score w⟩))

/-- Modelled from the spec (§4.3 item 4): the wells the density count is
over — members of the full population other than `w` itself, with valid
coordinates, lying within 10560 feet of `w`. -/
def specDensityCount (dist : DistFn) (population : List Well) (w : Well) : ℕ :=
  population.countP (fun o =>
    decide (o ≠ w) && o.SHLLatitude.isSome && o.SHLLongitude.isSome &&
    (match dist w.SHLLatitude w.SHLLongitude
        o.SHLLatitude o.SHLLongitude with
     | Except.ok d => decide ((d : ℚ) ≤ 10560)
     | Except.error _ => false))

/-- Modelled from the spec (§4.2, claim C4): the qualifying ReferenceSet
candidates for well `w` — horizontal wells with both coordinates
present and an identity different from the API10 of `w`. -/
def specCandidates (population : List Well) (w : Well) : List Well :=
  population.filter (fun o =>
    o.IsHorizontalWell && o.SHLLatitude.isSome && o.SHLLongitude.isSome &&
    (o.API10 != w.API10))

/-- Modelled from the spec (claim C4): the pairwise distances from `w`
to its qualifying ReferenceSet candidates (distance computations that
fail contribute nothing). -/
def specCandidateDistances (dist : DistFn) (population : List Well)
    (w : Well) : List ℤ :=
  (specCandidates population w).filterMap (fun o =>
    (dist w.SHLLatitude w.SHLLongitude o.SHLLatitude o.SHLLongitude).toOption)

/-! ## Helper lemmas -/

/-- The enriched frame keeps every original row unchanged, in order. -/
lemma add_spacing_features_map_fst (pop : List Well) :
    ((WellSpacingAnalyzer.init pop).add_spacing_features).map Prod.fst = pop := by
  simp [WellSpacingAnalyzer.add_spacing_features, WellSpacingAnalyzer.init,
    List.map_map, Function.comp_def]

/-- Dropping a list element mapped to `none` does not change a
`filterMap`. -/
lemma filterMap_middle_none {α β : Type} (g : α → Option β) (o : α)
    (l1 l2 : List α) (h : g o = none) :
    (l1 ++ o :: l2).filterMap g = (l1 ++ l2).filterMap g := by
  simp [List.filterMap_append, List.filterMap_cons, h]

/-- Dropping a list element on which the predicate is false does not
change a `countP`. -/
lemma countP_middle_false {α : Type} (p : α → Bool) (o : α) (l1 l2 : List α)
    (h : p o = false) :
    (l1 ++ o :: l2).countP p = (l1 ++ l2).countP p := by
  simp [List.countP_append, List.countP_cons, h]

/-- With pairwise-distinct `API10` values, two population members are
distinct exactly when their `API10` values are. -/
lemma api10_ne_iff {pop : List Well}
    (hnd : (pop.map (fun x => x.API10)).Nodup) {x w : Well}
    (hx : x ∈ pop) (hw : w ∈ pop) : x.API10 ≠ w.API10 ↔ x ≠ w := by
  constructor
  · intro h hxw
    exact h (by rw [hxw])
  · intro h hapi
    exact h (List.inj_on_of_nodup_map hnd hx hw hapi)

/-! ## C10 — the enriched result preserves the input frame -/

/-- C10: `add_spacing_features` is a pure enrichment — the returned rows
are exactly the input rows, in order, with their original column values
unchanged, each paired with the four (and only four) new feature
columns; the caller's frame is never mutated (the constructor copies
it, and the embedding is a pure function of the input list). -/
theorem claim_C10_frame_preserved (pop : List Well) :
    ((WellSpacingAnalyzer.init pop).add_spacing_features).map Prod.fst = pop :=
  add_spacing_features_map_fst pop

/-! ## C1 — duplicate API10 does not raise -/

/-- First record of the duplicate-identity counterexample population. -/
def dupWellA : Well := ⟨"4212345678", none, none, false⟩

/-- Second record of the counterexample population: same `API10`. -/
def dupWellB : Well := ⟨"4212345678", none, none, true⟩

/-- C1 counterexample: on a population with two records sharing an
`API10`, the analyzer facade does not abort — `add_spacing_features`
has no failure branch at all in the source and simply returns a fully
computed feature row for every record. -/
theorem claim_C1_counterexample :
    (WellSpacingAnalyzer.init [dupWellA, dupWellB]).add_spacing_features =
      [(dupWellA, ⟨none, 0, none, 0⟩), (dupWellB, ⟨none, 0, none, 0⟩)] := rfl

/-- C1 (amended): for every input population that contains two records
with the same `API10`, the analyzer raises no error: it computes the
spacing features for every record and returns one enriched row per
input row. -/
theorem claim_C1_duplicate_identity (pop : List Well)
    (hdup : ¬ (pop.map (fun x => x.API10)).Nodup) :
    ((WellSpacingAnalyzer.init pop).add_spacing_features).map Prod.fst = pop ∧
    ((WellSpacingAnalyzer.init pop).add_spacing_features).length = pop.length := by
  refine ⟨add_spacing_features_map_fst pop, ?_⟩
  simp [WellSpacingAnalyzer.add_spacing_features, WellSpacingAnalyzer.init]

/-- Witness for C1 (amended) at the concrete duplicate population. -/
theorem claim_C1_duplicate_identity_witness :
    ¬ (([dupWellA, dupWellB].map (fun x => x.API10)).Nodup) ∧
    ((WellSpacingAnalyzer.init [dupWellA, dupWellB]).add_spacing_features).map
      Prod.fst = [dupWellA, dupWellB] ∧
    ((WellSpacingAnalyzer.init
        [dupWellA, dupWellB]).add_spacing_features).length =
      [dupWellA, dupWellB].length :=
  ⟨by decide, (claim_C1_duplicate_identity [dupWellA, dupWellB] (by decide)).1,
    (claim_C1_duplicate_identity [dupWellA, dupWellB] (by decide)).2⟩

/-! ## C3 — missing coordinates give the default features -/

/-- C3: a well whose latitude or longitude is absent gets exactly the
default features — nearest distance `NaN`, radius count `0`, average
`NaN`, density `0.0` — for every distance oracle whatsoever (so no
distance query can influence, or fail, that row), every reference list
and every population. -/
theorem claim_C3_missing_coordinate_defaults (dist : DistFn)
    (horiz pop : List Well) (w : Well)
    (h : w.SHLLatitude = none ∨ w.SHLLongitude = none) :
    nearestHorizontalDistanceOf dist horiz w = none ∧
    countWellsWithinRadiusOf dist horiz 5280 w = 0 ∧
    averageDistanceToKNearestOf dist horiz 3 w = none ∧
    wellDensityScoreOf dist pop w = 0 := by
  rcases h with h | h <;>
    simp [nearestHorizontalDistanceOf, countWellsWithinRadiusOf,
      averageDistanceToKNearestOf, wellDensityScoreOf, h]

/-- A distance oracle used only to instantiate witnesses. -/
def constDist : DistFn := fun _ _ _ _ => Except.ok 0

/-- A concrete well with a missing latitude. -/
def noLatWell : Well := ⟨"4200000001", none, some 0, false⟩

/-- Witness for C3 at a concrete coordinate-less well. -/
theorem claim_C3_missing_coordinate_defaults_witness :
    (noLatWell.SHLLatitude = none ∨ noLatWell.SHLLongitude = none) ∧
    (nearestHorizontalDistanceOf constDist [] noLatWell = none ∧
     countWellsWithinRadiusOf constDist [] 5280 noLatWell = 0 ∧
     averageDistanceToKNearestOf constDist [] 3 noLatWell = none ∧
     wellDensityScoreOf constDist [] noLatWell = 0) :=
  ⟨Or.inl rfl,
    claim_C3_missing_coordinate_defaults constDist [] [] noLatWell (Or.inl rfl)⟩

/-! ## C5 — a failing distance excludes only that candidate -/

/-- The minimum-with-empty-guard loop of the nearest-distance feature
ignores a candidate whose distance contribution is `none`. -/
lemma min_loop_middle_none (g : Well → Option ℤ) (o : Well)
    (X Y : List Well) (h : g o = none) :
    (if (X ++ o :: Y).length = 0 then none
     else ((X ++ o :: Y).filterMap g).min?) =
    (if (X ++ Y).length = 0 then none else ((X ++ Y).filterMap g).min?) := by
  have hlen : ¬ (X ++ o :: Y).length = 0 := by simp
  rw [if_neg hlen, filterMap_middle_none g o X Y h]
  by_cases h0 : (X ++ Y).length = 0
  · rw [if_pos h0]
    have hxy : X ++ Y = [] := List.length_eq_zero.mp h0
    simp [hxy]
  · rw [if_neg h0]

/-- C5: a candidate `o` on which the distance computation fails with
`InvalidCoordinate` is simply excluded: removing it from the reference
list (for the nearest-distance, radius-count and k-nearest features) or
from the population (for the density feature) leaves the features of
every well `w` unchanged, for any radius and any `k`.  The features are
total functions, so the error never escapes the computation. -/
theorem claim_C5_invalid_candidate_excluded (dist : DistFn) (w o : Well)
    (l1 l2 : List Well) (r : ℚ) (k : ℕ)
    (herr : dist w.SHLLatitude w.SHLLongitude o.SHLLatitude o.SHLLongitude =
      Except.error GeoError.invalidCoordinate) :
    nearestHorizontalDistanceOf dist (l1 ++ o :: l2) w =
      nearestHorizontalDistanceOf dist (l1 ++ l2) w ∧
    countWellsWithinRadiusOf dist (l1 ++ o :: l2) r w =
      countWellsWithinRadiusOf dist (l1 ++ l2) r w ∧
    averageDistanceToKNearestOf dist (l1 ++ o :: l2) k w =
      averageDistanceToKNearestOf dist (l1 ++ l2) k w ∧
    wellDensityScoreOf dist (l1 ++ o :: l2) w =
      wellDensityScoreOf dist (l1 ++ l2) w := by
  cases hmiss : (w.SHLLatitude.isNone || w.SHLLongitude.isNone) with
  | true =>
    refine ⟨?_, ?_, ?_, ?_⟩ <;>
      simp [nearestHorizontalDistanceOf, countWellsWithinRadiusOf,
        averageDistanceToKNearestOf, wellDensityScoreOf, hmiss]
  | false =>
    have hgnone : (fun x : Well =>
        if x.SHLLatitude.isSome && x.SHLLongitude.isSome then
          (dist w.SHLLatitude w.SHLLongitude
            x.SHLLatitude x.SHLLongitude).toOption
        else none) o = none := by
      cases hc : (o.SHLLatitude.isSome && o.SHLLongitude.isSome) <;>
        simp [hc, herr, Except.toOption]
    have hpfalse : (fun x : Well =>
        (x.API10 != w.API10) && x.SHLLatitude.isSome &&
        x.SHLLongitude.isSome &&
        (match dist w.SHLLatitude w.SHLLongitude
            x.SHLLatitude x.SHLLongitude with
         | Except.ok d => decide ((d : ℚ) ≤ r)
         | Except.error _ => false)) o = false := by
      simp [herr]
    have hdfalse : (fun x : Well =>
        (x.API10 != w.API10) && x.SHLLatitude.isSome &&
        x.SHLLongitude.isSome &&
        (match dist w.SHLLatitude w.SHLLongitude
            x.SHLLatitude x.SHLLongitude with
         | Except.ok d => decide ((d : ℚ) ≤ 2 * 5280)
         | Except.error _ => false)) o = false := by
      simp [herr]
    have havnone : (fun x : Well =>
        if x.API10 == w.API10 then none
        else if x.SHLLatitude.isSome && x.SHLLongitude.isSome then
          (dist w.SHLLatitude w.SHLLongitude
            x.SHLLatitude x.SHLLongitude).toOption
        else none) o = none := by
      cases ha : (o.API10 == w.API10)
      · cases hc : (o.SHLLatitude.isSome && o.SHLLongitude.isSome) <;>
          simp [ha, hc, herr, Except.toOption]
      · simp [ha]
    refine ⟨?_, ?_, ?_, ?_⟩
    · simp only [nearestHorizontalDistanceOf, hmiss, Bool.false_eq_true,
        if_false]
      cases hh : w.IsHorizontalWell
      · simp only [hh, Bool.false_eq_true, if_false]
        exact min_loop_middle_none _ o l1 l2 hgnone
      · simp only [hh, if_true]
        rw [List.filter_append, List.filter_cons]
        cases hne : (o.API10 != w.API10)
        · simp only [Bool.false_eq_true, if_false, ← List.filter_append]
        · simp only [if_true, ← List.cons_append]
          rw [List.filter_append] at *
          exact min_loop_middle_none _ o _ _ hgnone
    · simp only [countWellsWithinRadiusOf, hmiss, Bool.false_eq_true,
        if_false]
      exact countP_middle_false _ o l1 l2 hpfalse
    · simp only [averageDistanceToKNearestOf, hmiss, Bool.false_eq_true,
        if_false]
      rw [filterMap_middle_none _ o l1 l2 havnone]
    · simp only [wellDensityScoreOf, hmiss, Bool.false_eq_true, if_false]
      rw [countP_middle_false _ o l1 l2 hdfalse]

/-- A distance oracle that always fails, for the C5 witness. -/
def failDist : DistFn := fun _ _ _ _ => Except.error GeoError.invalidCoordinate

/-- A concrete well with coordinates, for witnesses. -/
def originWell : Well := ⟨"4200000002", some 0, some 0, true⟩

/-- A second concrete well with coordinates, for witnesses. -/
def otherWell : Well := ⟨"4200000003", some 1, some 1, true⟩

/-- Witness for C5: with an always-failing oracle, dropping the failing
candidate changes nothing. -/
theorem claim_C5_invalid_candidate_excluded_witness :
    failDist originWell.SHLLatitude originWell.SHLLongitude
        otherWell.SHLLatitude otherWell.SHLLongitude =
      Except.error GeoError.invalidCoordinate ∧
    (nearestHorizontalDistanceOf failDist ([] ++ otherWell :: []) originWell =
      nearestHorizontalDistanceOf failDist ([] ++ []) originWell ∧
    countWellsWithinRadiusOf failDist ([] ++ otherWell :: []) 5280 originWell =
      countWellsWithinRadiusOf failDist ([] ++ []) 5280 originWell ∧
    averageDistanceToKNearestOf failDist ([] ++ otherWell :: []) 3 originWell =
      averageDistanceToKNearestOf failDist ([] ++ []) 3 originWell ∧
    wellDensityScoreOf failDist ([] ++ otherWell :: []) originWell =
      wellDensityScoreOf failDist ([] ++ []) originWell) :=
  ⟨rfl, claim_C5_invalid_candidate_excluded failDist originWell otherWell
    [] [] 5280 3 rfl⟩

/-! ## C6 — a well never counts itself as its own neighbor -/

/-- Filtering by a predicate whose failure already maps to `none` does
not change a `filterMap`. -/
lemma filterMap_filter_of_none {α β : Type} (g : α → Option β)
    (q : α → Bool) (l : List α) (h : ∀ a, q a = false → g a = none) :
    (l.filter q).filterMap g = l.filterMap g := by
  induction l with
  | nil => rfl
  | cons a t ih =>
    cases hq : q a
    · rw [List.filter_cons, if_neg (by simp [hq]), ih,
        List.filterMap_cons, h a hq]
    · rw [List.filter_cons, if_pos (by simp [hq]), List.filterMap_cons,
        List.filterMap_cons, ih]

/-- Filtering by a conjunct already implied by the `countP` predicate
does not change the count. -/
lemma countP_filter_absorb {α : Type} (p q : α → Bool) (l : List α)
    (h : ∀ a, p a = true → q a = true) :
    (l.filter q).countP p = l.countP p := by
  rw [List.countP_filter]
  apply List.countP_congr
  intro x _
  constructor
  · intro hx
    exact (Bool.and_eq_true _ _).mp hx |>.1
  · intro hx
    exact (Bool.and_eq_true _ _).mpr ⟨hx, h x hx⟩

/-- C6: with pairwise-distinct `API10` values, no well is ever counted
as its own neighbor — removing every record bearing the well's own
`API10` from the reference list (respectively from the population, for
the density feature) changes none of the four features, for any
distance oracle, radius and `k`. -/
theorem claim_C6_no_self_neighbor (dist : DistFn) (pop : List Well)
    (w : Well) (hnd : (pop.map (fun x => x.API10)).Nodup) (hw : w ∈ pop) :
    nearestHorizontalDistanceOf dist
        (pop.filter (fun x => x.IsHorizontalWell)) w =
      nearestHorizontalDistanceOf dist
        ((pop.filter (fun x => x.IsHorizontalWell)).filter
          (fun x => x.API10 != w.API10)) w ∧
    (∀ r, countWellsWithinRadiusOf dist
        (pop.filter (fun x => x.IsHorizontalWell)) r w =
      countWellsWithinRadiusOf dist
        ((pop.filter (fun x => x.IsHorizontalWell)).filter
          (fun x => x.API10 != w.API10)) r w) ∧
    (∀ k, averageDistanceToKNearestOf dist
        (pop.filter (fun x => x.IsHorizontalWell)) k w =
      averageDistanceToKNearestOf dist
        ((pop.filter (fun x => x.IsHorizontalWell)).filter
          (fun x => x.API10 != w.API10)) k w) ∧
    wellDensityScoreOf dist pop w =
      wellDensityScoreOf dist (pop.filter (fun x => x.API10 != w.API10)) w := by
  refine ⟨?_, ?_, ?_, ?_⟩
  · cases hmiss : (w.SHLLatitude.isNone || w.SHLLongitude.isNone)
    · simp only [nearestHorizontalDistanceOf, hmiss, Bool.false_eq_true,
        if_false]
      cases hh : w.IsHorizontalWell
      · simp only [hh, Bool.false_eq_true, if_false]
        have hfeq : (pop.filter (fun x => x.IsHorizontalWell)).filter
            (fun x => x.API10 != w.API10) =
            pop.filter (fun x => x.IsHorizontalWell) := by
          apply List.filter_eq_self.mpr
          intro x hx
          rw [List.mem_filter] at hx
          have hxw : x ≠ w := by
            intro hxw
            subst hxw
            rw [hx.2] at hh
            simp at hh
          simpa using (api10_ne_iff hnd hx.1 hw).mpr hxw
        rw [hfeq]
      · simp only [hh, if_true, List.filter_filter, ← Bool.and_assoc,
          Bool.and_self]
    · simp [nearestHorizontalDistanceOf, hmiss]
  · intro r
    cases hmiss : (w.SHLLatitude.isNone || w.SHLLongitude.isNone)
    · simp only [countWellsWithinRadiusOf, hmiss, Bool.false_eq_true,
        if_false]
      refine Eq.symm (countP_filter_absorb _ _ _ ?_)
      intro x hx
      rcases Bool.and_eq_true _ _ |>.mp hx with ⟨hx1, _⟩
      rcases Bool.and_eq_true _ _ |>.mp hx1 with ⟨hx2, _⟩
      exact (Bool.and_eq_true _ _).mp hx2 |>.1
    · simp [countWellsWithinRadiusOf, hmiss]
  · intro k
    cases hmiss : (w.SHLLatitude.isNone || w.SHLLongitude.isNone)
    · simp only [averageDistanceToKNearestOf, hmiss, Bool.false_eq_true,
        if_false]
      have hfm := filterMap_filter_of_none
        (fun o : Well => if o.API10 == w.API10 then (none : Option ℤ)
          else if o.SHLLatitude.isSome && o.SHLLongitude.isSome then
            (dist w.SHLLatitude w.SHLLongitude
              o.SHLLatitude o.SHLLongitude).toOption
          else none)
        (fun x : Well => x.API10 != w.API10)
        (pop.filter (fun x => x.IsHorizontalWell))
        (by
          intro x hxf
          have hx2 : (x.API10 == w.API10) = true :=
            beq_iff_eq.mpr (bne_eq_false_iff_eq.mp hxf)
          simp [hx2])
      rw [hfm]
    · simp [averageDistanceToKNearestOf, hmiss]
  · cases hmiss : (w.SHLLatitude.isNone || w.SHLLongitude.isNone)
    · simp only [wellDensityScoreOf, hmiss, Bool.false_eq_true, if_false]
      rw [countP_filter_absorb _ _ _ ?habs]
      case habs =>
        intro x hx
        rcases Bool.and_eq_true _ _ |>.mp hx with ⟨hx1, _⟩
        rcases Bool.and_eq_true _ _ |>.mp hx1 with ⟨hx2, _⟩
        exact (Bool.and_eq_true _ _).mp hx2 |>.1
    · simp [wellDensityScoreOf, hmiss]

/-- Witness for C6 on a concrete two-well population. -/
theorem claim_C6_no_self_neighbor_witness :
    ([originWell, otherWell].map (fun x => x.API10)).Nodup ∧
      originWell ∈ [originWell, otherWell] ∧
    (nearestHorizontalDistanceOf constDist
        ([originWell, otherWell].filter (fun x => x.IsHorizontalWell))
        originWell =
      nearestHorizontalDistanceOf constDist
        (([originWell, otherWell].filter (fun x => x.IsHorizontalWell)).filter
          (fun x => x.API10 != originWell.API10)) originWell ∧
    (∀ r, countWellsWithinRadiusOf constDist
        ([originWell, otherWell].filter (fun x => x.IsHorizontalWell)) r
        originWell =
      countWellsWithinRadiusOf constDist
        (([originWell, otherWell].filter (fun x => x.IsHorizontalWell)).filter
          (fun x => x.API10 != originWell.API10)) r originWell) ∧
    (∀ k, averageDistanceToKNearestOf constDist
        ([originWell, otherWell].filter (fun x => x.IsHorizontalWell)) k
        originWell =
      averageDistanceToKNearestOf constDist
        (([originWell, otherWell].filter (fun x => x.IsHorizontalWell)).filter
          (fun x => x.API10 != originWell.API10)) k originWell) ∧
    wellDensityScoreOf constDist [originWell, otherWell] originWell =
      wellDensityScoreOf constDist
        ([originWell, otherWell].filter
          (fun x => x.API10 != originWell.API10)) originWell) :=
  ⟨by decide, by simp,
    claim_C6_no_self_neighbor constDist [originWell, otherWell] originWell
      (by decide) (by simp)⟩

/-! ## C2 — well density score -/

/-- C2: for a well with both coordinates present, in a population with
pairwise-distinct `API10` values, the density score is the number of
population members other than the well itself with valid coordinates
within 10560 feet, divided by `π · 4` (the area in square miles of a
2-mile-radius disc). -/
theorem claim_C2_well_density_score (pop : List Well) (w : Well)
    (hnd : (pop.map (fun x => x.API10)).Nodup) (hw : w ∈ pop)
    (hlat : w.SHLLatitude.isSome = true) (hlng : w.SHLLongitude.isSome = true) :
    (WellSpacingAnalyzer.init pop).calculate_well_density_score w =
      (specDensityCount distance_in_feet pop w : ℝ) / (Real.pi * 4) := by
  have h1 : w.SHLLatitude.isNone = false := by
    cases hl : w.SHLLatitude
    · rw [hl] at hlat
      simp at hlat
    · rfl
  have h2 : w.SHLLongitude.isNone = false := by
    cases hl : w.SHLLongitude
    · rw [hl] at hlng
      simp at hlng
    · rfl
  have hcount : pop.countP (fun o =>
      (o.API10 != w.API10) && o.SHLLatitude.isSome &&
      o.SHLLongitude.isSome &&
      (match distance_in_feet w.SHLLatitude w.SHLLongitude
          o.SHLLatitude o.SHLLongitude with
       | Except.ok d => decide ((d : ℚ) ≤ 2 * 5280)
       | Except.error _ => false)) = specDensityCount distance_in_feet pop w := by
    unfold specDensityCount
    apply List.countP_congr
    intro x hx
    have hb : (x.API10 != w.API10) = decide (x ≠ w) := by
      cases hd : decide (x ≠ w)
      · have hxw : x = w := by simpa using hd
        simp [hxw]
      · have hxw : x ≠ w := of_decide_eq_true hd
        have hapi : x.API10 ≠ w.API10 := (api10_ne_iff hnd hx hw).mpr hxw
        simp [hapi]
    have hr : (2 * 5280 : ℚ) = 10560 := by norm_num
    cases hdist : distance_in_feet w.SHLLatitude w.SHLLongitude
        x.SHLLatitude x.SHLLongitude with
    | error e => simp [hdist, hb]
    | ok d => rw [hr]; simp [hdist, hb]
  show wellDensityScoreOf distance_in_feet pop w = _
  simp only [wellDensityScoreOf, h1, h2, Bool.or_self, Bool.false_eq_true,
    if_false]
  rw [hcount, show (Real.pi * 2 ^ 2 : ℝ) = Real.pi * 4 by norm_num]

/-- Witness for C2 on a concrete two-well population. -/
theorem claim_C2_well_density_score_witness :
    ([originWell, otherWell].map (fun x => x.API10)).Nodup ∧
    originWell ∈ [originWell, otherWell] ∧
    originWell.SHLLatitude.isSome = true ∧
    originWell.SHLLongitude.isSome = true ∧
    (WellSpacingAnalyzer.init
        [originWell, otherWell]).calculate_well_density_score originWell =
      (specDensityCount distance_in_feet [originWell, otherWell] originWell :
        ℝ) / (Real.pi * 4) :=
  ⟨by decide, by simp, rfl, rfl,
    claim_C2_well_density_score [originWell, otherWell] originWell
      (by decide) (by simp) rfl rfl⟩

/-! ## C4 — average distance to the three nearest -/

/-- The candidate-distance list the k-nearest loop folds over equals the
spec-side qualifying candidate distances. -/
lemma candidate_distances_eq_spec (dist : DistFn) (pop : List Well)
    (w : Well) :
    (pop.filter (fun x => x.IsHorizontalWell)).filterMap (fun o =>
      if o.API10 == w.API10 then none
      else if o.SHLLatitude.isSome && o.SHLLongitude.isSome then
        (dist w.SHLLatitude w.SHLLongitude
          o.SHLLatitude o.SHLLongitude).toOption
      else none) = specCandidateDistances dist pop w := by
  unfold specCandidateDistances specCandidates
  induction pop with
  | nil => rfl
  | cons a t ih =>
    cases hH : a.IsHorizontalWell <;>
      cases hA : (a.API10 == w.API10) <;>
      cases hLa : a.SHLLatitude.isSome <;>
      cases hLo : a.SHLLongitude.isSome <;>
      cases hT : (dist w.SHLLatitude w.SHLLongitude
        a.SHLLatitude a.SHLLongitude).toOption <;>
      simp only [beq_iff_eq, beq_eq_false_iff_ne] at hA <;>
      simp [List.filter_cons, List.filterMap_cons, hH, hA, hLa, hLo, hT,
        bne] at ih ⊢ <;>
      exact ih

/-- C4: for a well with both coordinates present, if at least three
qualifying ReferenceSet candidate distances exist the average feature is
the mean of the first three entries of an ascending sorted permutation
of those distances (i.e. of exactly the three smallest); with fewer than
three it is `NaN`. -/
theorem claim_C4_avg_three_nearest (pop : List Well) (w : Well)
    (hlat : w.SHLLatitude.isSome = true)
    (hlng : w.SHLLongitude.isSome = true) :
    (3 ≤ (specCandidateDistances distance_in_feet pop w).length →
      ∃ s : List ℤ, s.Perm (specCandidateDistances distance_in_feet pop w) ∧
        s.Sorted (· ≤ ·) ∧
        (WellSpacingAnalyzer.init pop).average_distance_to_k_nearest 3 w =
          some (((s.take 3).map (fun d => (d : ℚ))).sum / 3)) ∧
    ((specCandidateDistances distance_in_feet pop w).length < 3 →
      (WellSpacingAnalyzer.init pop).average_distance_to_k_nearest 3 w =
        none) := by
  have h1 : w.SHLLatitude.isNone = false := by
    cases hl : w.SHLLatitude
    · rw [hl] at hlat
      simp at hlat
    · rfl
  have h2 : w.SHLLongitude.isNone = false := by
    cases hl : w.SHLLongitude
    · rw [hl] at hlng
      simp at hlng
    · rfl
  have hmeth : (WellSpacingAnalyzer.init pop).average_distance_to_k_nearest
      3 w = averageDistanceToKNearestOf distance_in_feet
        (pop.filter (fun x => x.IsHorizontalWell)) 3 w := rfl
  rw [hmeth]
  simp only [averageDistanceToKNearestOf, h1, h2, Bool.or_self,
    Bool.false_eq_true, if_false]
  rw [candidate_distances_eq_spec distance_in_feet pop w]
  constructor
  · intro h3
    have htrans : ∀ a b c : ℤ, (fun a b : ℤ => decide (a ≤ b)) a b = true →
        (fun a b : ℤ => decide (a ≤ b)) b c = true →
        (fun a b : ℤ => decide (a ≤ b)) a c = true := by
      intro a b c hab hbc
      simp only [decide_eq_true_iff] at *
      omega
    have htotal : ∀ a b : ℤ, ((fun a b : ℤ => decide (a ≤ b)) a b ||
        (fun a b : ℤ => decide (a ≤ b)) b a) = true := by
      intro a b
      rcases le_total a b with h | h <;> simp [h]
    refine ⟨(specCandidateDistances distance_in_feet pop w).mergeSort
      (fun a b => decide (a ≤ b)), List.mergeSort_perm _ _, ?_, ?_⟩
    · exact (List.sorted_mergeSort htrans htotal
        (specCandidateDistances distance_in_feet pop w)).imp
        (fun h => of_decide_eq_true h)
    · rw [if_pos h3]
      norm_num
  · intro hlt
    rw [if_neg (by omega)]

/-- Witness for C4 at a well with coordinates and an empty reference
set (zero candidates, so the fewer-than-three branch applies). -/
theorem claim_C4_avg_three_nearest_witness :
    originWell.SHLLatitude.isSome = true ∧
    originWell.SHLLongitude.isSome = true ∧
    ((3 ≤ (specCandidateDistances distance_in_feet [originWell]
        originWell).length →
      ∃ s : List ℤ, s.Perm (specCandidateDistances distance_in_feet
          [originWell] originWell) ∧
        s.Sorted (· ≤ ·) ∧
        (WellSpacingAnalyzer.init [originWell]).average_distance_to_k_nearest
            3 originWell =
          some (((s.take 3).map (fun d => (d : ℚ))).sum / 3)) ∧
    ((specCandidateDistances distance_in_feet [originWell]
        originWell).length < 3 →
      (WellSpacingAnalyzer.init [originWell]).average_distance_to_k_nearest
        3 originWell = none)) :=
  ⟨rfl, rfl, claim_C4_avg_three_nearest [originWell] originWell rfl rfl⟩

/-! ## C7 — validation of GeoDistance inputs -/

/-- On four numeric arguments, `invalidGeoInput` is false exactly when
every coordinate is within its range. -/
lemma invalidGeoInput_some_eq_false (a1 o1 a2 o2 : ℚ) :
    invalidGeoInput (some a1) (some o1) (some a2) (some o2) = false ↔
      ((-90 ≤ a1 ∧ a1 ≤ 90) ∧ (-90 ≤ a2 ∧ a2 ≤ 90)) ∧
      ((-180 ≤ o1 ∧ o1 ≤ 180) ∧ (-180 ≤ o2 ∧ o2 ≤ 180)) := by
  simp only [invalidGeoInput, Bool.or_eq_false_iff, decide_eq_false_iff_not,
    not_or, not_lt]
  tauto

/-- C7: `distance_in_feet` reports `InvalidCoordinate` exactly when some
argument is non-finite/non-numeric, some latitude lies outside
`[-90, 90]`, or some longitude lies outside `[-180, 180]`; on every
other input it returns a distance. -/
theorem claim_C7_geodistance_validation (lat1 lng1 lat2 lng2 : PyFloat) :
    (distance_in_feet lat1 lng1 lat2 lng2 =
        Except.error GeoError.invalidCoordinate ↔
      invalidGeoInput lat1 lng1 lat2 lng2 = true) ∧
    (invalidGeoInput lat1 lng1 lat2 lng2 = false →
      ∃ d, distance_in_feet lat1 lng1 lat2 lng2 = Except.ok d) := by
  rcases lat1 with _ | a1
  · exact ⟨by simp [distance_in_feet, invalidGeoInput],
      by simp [invalidGeoInput]⟩
  rcases lng1 with _ | o1
  · exact ⟨by simp [distance_in_feet, invalidGeoInput],
      by simp [invalidGeoInput]⟩
  rcases lat2 with _ | a2
  · exact ⟨by simp [distance_in_feet, invalidGeoInput],
      by simp [invalidGeoInput]⟩
  rcases lng2 with _ | o2
  · exact ⟨by simp [distance_in_feet, invalidGeoInput],
      by simp [invalidGeoInput]⟩
  by_cases hA : (-90 ≤ a1 ∧ a1 ≤ 90) ∧ (-90 ≤ a2 ∧ a2 ≤ 90)
  · by_cases hO : (-180 ≤ o1 ∧ o1 ≤ 180) ∧ (-180 ≤ o2 ∧ o2 ≤ 180)
    · have hd : distance_in_feet (some a1) (some o1) (some a2) (some o2) =
          Except.ok (haversineFeet a1 o1 a2 o2) := by
        simp only [distance_in_feet]
        rw [if_pos hA, if_pos hO]
      have hinv : invalidGeoInput (some a1) (some o1) (some a2) (some o2) =
          false := (invalidGeoInput_some_eq_false a1 o1 a2 o2).mpr ⟨hA, hO⟩
      rw [hd, hinv]
      exact ⟨by simp, fun _ => ⟨haversineFeet a1 o1 a2 o2, rfl⟩⟩
    · have hd : distance_in_feet (some a1) (some o1) (some a2) (some o2) =
          Except.error GeoError.invalidCoordinate := by
        simp only [distance_in_feet]
        rw [if_pos hA, if_neg hO]
      have hinv : invalidGeoInput (some a1) (some o1) (some a2) (some o2) =
          true := by
        cases hb : invalidGeoInput (some a1) (some o1) (some a2) (some o2)
        · exact absurd ((invalidGeoInput_some_eq_false a1 o1 a2 o2).mp hb).2
            hO
        · rfl
      rw [hd, hinv]
      exact ⟨by simp, by simp⟩
  · have hd : distance_in_feet (some a1) (some o1) (some a2) (some o2) =
        Except.error GeoError.invalidCoordinate := by
      simp only [distance_in_feet]
      rw [if_neg hA]
    have hinv : invalidGeoInput (some a1) (some o1) (some a2) (some o2) =
        true := by
      cases hb : invalidGeoInput (some a1) (some o1) (some a2) (some o2)
      · exact absurd ((invalidGeoInput_some_eq_false a1 o1 a2 o2).mp hb).1
          hA
      · rfl
    rw [hd, hinv]
    exact ⟨by simp, by simp⟩

/-- Witness for C7: an out-of-range latitude is rejected and a valid
input is not. -/
theorem claim_C7_geodistance_validation_witness :
    distance_in_feet (some 100) (some 0) (some 0) (some 0) =
      Except.error GeoError.invalidCoordinate ∧
    ∃ d, distance_in_feet (some 45) (some 100) (some 46) (some 101) =
      Except.ok d :=
  ⟨(claim_C7_geodistance_validation (some 100) (some 0) (some 0)
      (some 0)).1.mpr (by decide),
   (claim_C7_geodistance_validation (some 45) (some 100) (some 46)
      (some 101)).2 (by decide)⟩

/-! ## C8 — the haversine formula, exact zero on identical points -/

/-- `atan2 0 1 = 0`. -/
lemma atan2_zero_one : atan2 0 1 = 0 := by
  have h : (⟨1, 0⟩ : ℂ) = 1 := by
    apply Complex.ext <;> simp
  rw [atan2, h, Complex.arg_one]

/-- On identical input points the haversine distance is exactly zero. -/
lemma haversineFeet_self (a o : ℚ) : haversineFeet a o a o = 0 := by
  simp [haversineFeet, radians, sub_self, Rat.cast_zero, zero_mul, zero_div,
    Real.sin_zero, pow_two, mul_zero, add_zero, Real.sqrt_zero, sub_zero,
    Real.sqrt_one, atan2_zero_one, round_zero]

/-- C8: on valid in-range inputs `distance_in_feet` returns exactly the
great-circle distance the specification prescribes — `round(R·c)` with
`R = 6371000 · 3.2808399` and the haversine `c` — and two identical
points yield exactly `0`. -/
theorem claim_C8_haversine_formula (a1 o1 a2 o2 : ℚ)
    (h1 : -90 ≤ a1 ∧ a1 ≤ 90) (h2 : -90 ≤ a2 ∧ a2 ≤ 90)
    (h3 : -180 ≤ o1 ∧ o1 ≤ 180) (h4 : -180 ≤ o2 ∧ o2 ≤ 180) :
    distance_in_feet (some a1) (some o1) (some a2) (some o2) =
      Except.ok (specGreatCircleFeet a1 o1 a2 o2) ∧
    (a1 = a2 → o1 = o2 →
      distance_in_feet (some a1) (some o1) (some a2) (some o2) =
        Except.ok 0) := by
  have hd : distance_in_feet (some a1) (some o1) (some a2) (some o2) =
      Except.ok (haversineFeet a1 o1 a2 o2) := by
    simp only [distance_in_feet]
    rw [if_pos ⟨h1, h2⟩, if_pos ⟨h3, h4⟩]
  refine ⟨by rw [hd]; rfl, ?_⟩
  rintro rfl rfl
  rw [hd, haversineFeet_self]

/-- Witness for C8 at an identical pair of in-range points. -/
theorem claim_C8_haversine_formula_witness :
    ((-90 : ℚ) ≤ 40.7608 ∧ (40.7608 : ℚ) ≤ 90) ∧
    ((-180 : ℚ) ≤ -111.891 ∧ (-111.891 : ℚ) ≤ 180) ∧
    distance_in_feet (some 40.7608) (some (-111.891)) (some 40.7608)
        (some (-111.891)) =
      Except.ok (specGreatCircleFeet 40.7608 (-111.891) 40.7608
        (-111.891)) ∧
    distance_in_feet (some 40.7608) (some (-111.891)) (some 40.7608)
        (some (-111.891)) = Except.ok 0 :=
  ⟨by norm_num, by norm_num,
    (claim_C8_haversine_formula 40.7608 (-111.891) 40.7608 (-111.891)
      (by norm_num) (by norm_num) (by norm_num) (by norm_num)).1,
    (claim_C8_haversine_formula 40.7608 (-111.891) 40.7608 (-111.891)
      (by norm_num) (by norm_num) (by norm_num) (by norm_num)).2 rfl rfl⟩

/-! ## C9 — symmetry and non-negativity -/

/-- The squared half-angle sine is insensitive to the order of the
subtraction. -/
lemma sin_half_sq_swap (x y : ℚ) :
    Real.sin (radians ((x - y : ℚ) : ℝ) / 2) ^ 2 =
      Real.sin (radians ((y - x : ℚ) : ℝ) / 2) ^ 2 := by
  have h : ((x - y : ℚ) : ℝ) = -((y - x : ℚ) : ℝ) := by
    push_cast
    ring
  simp only [radians]
  rw [h, neg_mul, neg_div, Real.sin_neg, neg_sq]

/-- The haversine `a` term is symmetric in the two input points. -/
lemma hav_a_symm (a1 o1 a2 o2 : ℚ) :
    Real.sin (radians ((a2 - a1 : ℚ) : ℝ) / 2) ^ 2 +
      Real.cos (radians (a1 : ℝ)) * Real.cos (radians (a2 : ℝ)) *
      Real.sin (radians ((o2 - o1 : ℚ) : ℝ) / 2) ^ 2 =
    Real.sin (radians ((a1 - a2 : ℚ) : ℝ) / 2) ^ 2 +
      Real.cos (radians (a2 : ℝ)) * Real.cos (radians (a1 : ℝ)) *
      Real.sin (radians ((o1 - o2 : ℚ) : ℝ) / 2) ^ 2 := by
  rw [sin_half_sq_swap a2 a1, sin_half_sq_swap o2 o1]
  ring

/-- The haversine distance is symmetric. -/
lemma haversineFeet_symm (a1 o1 a2 o2 : ℚ) :
    haversineFeet a1 o1 a2 o2 = haversineFeet a2 o2 a1 o1 := by
  simp only [haversineFeet]
  rw [hav_a_symm]

/-- The two-argument arctangent of two square roots is non-negative. -/
lemma atan2_sqrt_nonneg (a : ℝ) :
    0 ≤ atan2 (Real.sqrt a) (Real.sqrt (1 - a)) := by
  rw [atan2]
  exact Complex.arg_nonneg_iff.mpr (Real.sqrt_nonneg a)

/-- The haversine distance is non-negative. -/
lemma haversineFeet_nonneg (a1 o1 a2 o2 : ℚ) :
    0 ≤ haversineFeet a1 o1 a2 o2 := by
  have key : ∀ x : ℝ, 0 ≤ x → 0 ≤ round x := by
    intro x hx
    rw [round_eq]
    exact Int.floor_nonneg.mpr (by linarith)
  simp only [haversineFeet]
  apply key
  apply mul_nonneg (by norm_num)
  exact mul_nonneg (by norm_num) (atan2_sqrt_nonneg _)

/-- C9: on valid in-range inputs `distance_in_feet` is symmetric in its
two points and returns a non-negative distance. -/
theorem claim_C9_symmetry_nonneg (a1 o1 a2 o2 : ℚ)
    (h1 : -90 ≤ a1 ∧ a1 ≤ 90) (h2 : -90 ≤ a2 ∧ a2 ≤ 90)
    (h3 : -180 ≤ o1 ∧ o1 ≤ 180) (h4 : -180 ≤ o2 ∧ o2 ≤ 180) :
    distance_in_feet (some a1) (some o1) (some a2) (some o2) =
      distance_in_feet (some a2) (some o2) (some a1) (some o1) ∧
    ∃ d, distance_in_feet (some a1) (some o1) (some a2) (some o2) =
      Except.ok d ∧ 0 ≤ d := by
  have hdL : distance_in_feet (some a1) (some o1) (some a2) (some o2) =
      Except.ok (haversineFeet a1 o1 a2 o2) := by
    simp only [distance_in_feet]
    rw [if_pos ⟨h1, h2⟩, if_pos ⟨h3, h4⟩]
  have hdR : distance_in_feet (some a2) (some o2) (some a1) (some o1) =
      Except.ok (haversineFeet a2 o2 a1 o1) := by
    simp only [distance_in_feet]
    rw [if_pos ⟨h2, h1⟩, if_pos ⟨h4, h3⟩]
  exact ⟨by rw [hdL, hdR, haversineFeet_symm],
    haversineFeet a1 o1 a2 o2, hdL, haversineFeet_nonneg a1 o1 a2 o2⟩

/-- Witness for C9 at two concrete in-range points. -/
theorem claim_C9_symmetry_nonneg_witness :
    distance_in_feet (some 40.7608) (some (-111.891)) (some 40.2338)
        (some (-111.6585)) =
      distance_in_feet (some 40.2338) (some (-111.6585)) (some 40.7608)
        (some (-111.891)) ∧
    ∃ d, distance_in_feet (some 40.7608) (some (-111.891)) (some 40.2338)
        (some (-111.6585)) = Except.ok d ∧ 0 ≤ d :=
  claim_C9_symmetry_nonneg 40.7608 (-111.891) 40.2338 (-111.6585)
    (by norm_num) (by norm_num) (by norm_num) (by norm_num)
